import Mathlib

/-!
Verification of the eclair HTTP backend against its specification.

The development shallowly embeds the request-scoped logic of the Express
routes (`routes/ai.js`, the web-summary router, the youtube-summary router,
`routes/notes.js`) as pure Lean functions.  JavaScript strings are modelled
as Lean `String` (a list of characters); the library calls that the routes
make (cheerio selector queries, the LLM client, Firestore) are modelled as
explicit inputs to the handler functions, so every handler is a total
function from its request and the external outcomes to its response.
-/

set_option maxRecDepth 40000

/-- JavaScript `String.prototype.trim` on a character list: drop whitespace
from both ends. -/
def trimChars (l : List Char) : List Char :=
  ((l.dropWhile Char.isWhitespace).reverse.dropWhile Char.isWhitespace).reverse

/-- JavaScript `s.trim()`. -/
def jsTrim (s : String) : String :=
  String.mk (trimChars s.data)

/-- If `s` starts with `pat` (comparing case-insensitively, `pat` given in
lower case), return the remainder of `s` after the matched prefix. -/
def dropPatCI : List Char → List Char → Option (List Char)
  | [], s => some s
  | _, [] => none
  | p :: ps, c :: cs => if c.toLower = p then dropPatCI ps cs else none

/-- Find the leftmost case-insensitive occurrence of `pat` in `s`; return the
text before the match and the text after the match. -/
def splitFirstCI (pat : List Char) : List Char → Option (List Char × List Char)
  | [] => none
  | c :: cs =>
    match dropPatCI pat (c :: cs) with
    | some rest => some ([], rest)
    | none =>
      match splitFirstCI pat cs with
      | some pr => some (c :: pr.1, pr.2)
      | none => none

/-- The opening delimiter of the regex `/<think>[\s\S]*?<\/think>/gi`. -/
def thinkOpen : List Char := "<think>".data

/-- The closing delimiter of the regex `/<think>[\s\S]*?<\/think>/gi`. -/
def thinkClose : List Char := "</think>".data

/-- One global pass of `text.replace(/<think>[\s\S]*?<\/think>/gi, '')`:
repeatedly find the leftmost opening delimiter, delete through the nearest
closing delimiter after it (the non-greedy match), and continue scanning
after the deleted span; an opening delimiter with no closing delimiter after
it matches nothing and the rest of the text is kept.  `fuel` bounds the
recursion; `fuel = length of the text` always suffices because every deleted
span is non-empty. -/
def stripThinkAux : Nat → List Char → List Char
  | 0, s => s
  | fuel + 1, s =>
    match splitFirstCI thinkOpen s with
    | none => s
    | some pr =>
      match splitFirstCI thinkClose pr.2 with
      | none => s
      | some pr2 => pr.1 ++ stripThinkAux fuel pr2.2

/-- Function `removeThinkBlocks` from `routes/ai.js` (the identical copies in the
web-summary and youtube-summary routers are this same function):
`if (!text) return text; return text.replace(/<think>[\s\S]*?<\/think>/gi, '').trim();` -/
def removeThinkBlocks (text : String) : String :=
  if text = "" then text
  else jsTrim (String.mk (stripThinkAux text.data.length text.data))

/-- Does the text contain a complete think block, i.e. an opening delimiter
with a closing delimiter somewhere after it (both case-insensitive)?  Exactly
when this is false, the regex `/<think>[\s\S]*?<\/think>/gi` has no match. -/
def hasThinkPair (s : String) : Bool :=
  match splitFirstCI thinkOpen s.data with
  | none => false
  | some pr => (splitFirstCI thinkClose pr.2).isSome

/-- A frame written to the event stream by the streaming AI routes:
`{content}` delta frames, the `{content:'', finished:true, fullResponse}`
terminal frame, and the in-band `{error, message}` terminal frame. -/
inductive StreamEvent where
  | delta (text : String)
  | done (fullResponse : String)
  | error (message : String)
deriving DecidableEq

/-- The `for await (const chunk of completion)` loop of the streaming routes.
A chunk is modelled as `Option String`: `chunk.choices[0]?.delta?.content`
is either absent (`none`) or a string, and the loop body runs only when that
string is truthy, i.e. non-empty.  Returns the written delta frames in order
together with the accumulated `fullResponse`. -/
def streamLoop : List (Option String) → List StreamEvent × String
  | [] => ([], "")
  | none :: rest => streamLoop rest
  | some content :: rest =>
    if content = "" then streamLoop rest
    else
      let r := streamLoop rest
      (StreamEvent.delta content :: r.1, content ++ r.2)

/-- Outcome of the upstream `client.chat.completions.create` call and of the
subsequent iteration of its chunk stream. -/
inductive UpstreamOutcome where
  | ok (chunks : List (Option String))
  | failBeforeStream (message : String)
  | failMidStream (delivered : List (Option String)) (message : String)

/-- The externally observable response of one streaming request:
the HTTP status, the stream frames written in order, an optional synchronous
JSON error body, and whether the response was ended. -/
structure ChatResponse where
  status : Nat
  frames : List StreamEvent
  jsonBody : Option String
  ended : Bool
deriving DecidableEq

/-- The `POST /api/ai/chat` handler of `routes/ai.js`.  `prompt` is the
request-body field; `outcome` is the behaviour of the upstream LLM call.
Express marks `res.headersSent` once the first `res.write` happens, so on a
mid-stream failure the error branch sees `headersSent` exactly when at least
one delta frame was already written. -/
def chatHandler (prompt : Option String) (outcome : UpstreamOutcome) : ChatResponse :=
  match prompt with
  | none => { status := 400, frames := [], jsonBody := some "Prompt is required", ended := true }
  | some p =>
    if p = "" then
      { status := 400, frames := [], jsonBody := some "Prompt is required", ended := true }
    else
      match outcome with
      | UpstreamOutcome.ok chunks =>
        let r := streamLoop chunks
        { status := 200,
          frames := r.1 ++ [StreamEvent.done (removeThinkBlocks r.2)],
          jsonBody := none, ended := true }
      | UpstreamOutcome.failBeforeStream _ =>
        { status := 500, frames := [], jsonBody := some "AI service error", ended := true }
      | UpstreamOutcome.failMidStream delivered msg =>
        let r := streamLoop delivered
        if r.1 = [] then
          { status := 500, frames := [], jsonBody := some "AI service error", ended := true }
        else
          { status := 200, frames := r.1 ++ [StreamEvent.error msg],
            jsonBody := none, ended := true }

/-- Concatenation of the delta texts of a chunk sequence, i.e. the
`fullResponse` accumulator. -/
def concatAll (l : List String) : String :=
  l.foldr (fun a b => a ++ b) ""

theorem streamLoop_all_some (texts : List String) (h : ∀ t ∈ texts, t ≠ "") :
    streamLoop (texts.map some) = (texts.map StreamEvent.delta, concatAll texts) := by
  induction texts with
  | nil => rfl
  | cons t ts ih =>
    have ht : t ≠ "" := h t (by simp)
    have ih2 := ih (fun x hx => h x (by simp [hx]))
    simp [streamLoop, ht, ih2, concatAll]

/-- Is a stream frame a delta frame? -/
def isDeltaEvent : StreamEvent → Bool
  | StreamEvent.delta _ => true
  | _ => false

/-- Is a stream frame a terminal frame (finished or in-band error)? -/
def isTerminalEvent : StreamEvent → Bool
  | StreamEvent.delta _ => false
  | _ => true

theorem streamLoop_frames_delta (chunks : List (Option String)) :
    ∀ e ∈ (streamLoop chunks).1, isDeltaEvent e = true := by
  induction chunks with
  | nil => intro e he; simp [streamLoop] at he
  | cons c rest ih =>
    intro e he
    match c with
    | none => exact ih e (by simpa [streamLoop] using he)
    | some content =>
      by_cases hc : content = ""
      · exact ih e (by simpa [streamLoop, hc] using he)
      · simp [streamLoop, hc] at he
        rcases he with he | he
        · simp [he, isDeltaEvent]
        · exact ih e he

/-- C1: for every finite sequence of upstream chunks each carrying non-empty
delta text, the chat handler's frame sequence is exactly the delta frames in
arrival order followed by exactly one terminal (finished) frame; hence no
delta frame follows the terminal frame. -/
theorem chat_stream_ordering (p : String) (hp : p ≠ "")
    (texts : List String) (h : ∀ t ∈ texts, t ≠ "") :
    (chatHandler (some p) (UpstreamOutcome.ok (texts.map some))).frames
      = texts.map StreamEvent.delta
          ++ [StreamEvent.done (removeThinkBlocks (concatAll texts))]
    ∧ ((chatHandler (some p) (UpstreamOutcome.ok (texts.map some))).frames.filter
        isDeltaEvent).length = texts.length
    ∧ ((chatHandler (some p) (UpstreamOutcome.ok (texts.map some))).frames.filter
        isTerminalEvent).length = 1 := by
  have hloop := streamLoop_all_some texts h
  refine ⟨?_, ?_, ?_⟩ <;>
    simp [chatHandler, hp, hloop, List.filter_append, List.filter_map,
      isDeltaEvent, isTerminalEvent, Function.comp]

theorem chat_stream_ordering_witness :
    (chatHandler (some "hi") (UpstreamOutcome.ok [some "a", some "b", some "c"])).frames
      = [StreamEvent.delta "a", StreamEvent.delta "b", StreamEvent.delta "c",
         StreamEvent.done "abc"] := by
  have h := (chat_stream_ordering "hi" (by decide) ["a", "b", "c"] (by decide)).1
  exact h.trans (by decide)

/-- C3: if the upstream call fails before any frame was written (headers not
yet sent) the chat handler answers with a synchronous HTTP 500 and writes no
frame; if it fails after at least one delta frame was written, the handler
keeps the 200 status and appends exactly one in-band error frame, which is
the last frame, and ends the stream. -/
theorem chat_error_bifurcation (p msg : String) (hp : p ≠ "")
    (delivered : List (Option String)) :
    ((chatHandler (some p) (UpstreamOutcome.failBeforeStream msg)).status = 500
      ∧ (chatHandler (some p) (UpstreamOutcome.failBeforeStream msg)).frames = []
      ∧ (chatHandler (some p) (UpstreamOutcome.failBeforeStream msg)).jsonBody.isSome)
    ∧ ((streamLoop delivered).1 = [] →
        (chatHandler (some p) (UpstreamOutcome.failMidStream delivered msg)).status = 500
        ∧ (chatHandler (some p) (UpstreamOutcome.failMidStream delivered msg)).frames = [])
    ∧ ((streamLoop delivered).1 ≠ [] →
        (chatHandler (some p) (UpstreamOutcome.failMidStream delivered msg)).status = 200
        ∧ (chatHandler (some p) (UpstreamOutcome.failMidStream delivered msg)).jsonBody = none
        ∧ (chatHandler (some p) (UpstreamOutcome.failMidStream delivered msg)).frames
            = (streamLoop delivered).1 ++ [StreamEvent.error msg]
        ∧ ((chatHandler (some p) (UpstreamOutcome.failMidStream delivered msg)).frames.filter
            (fun e => !isDeltaEvent e)).length = 1
        ∧ (chatHandler (some p) (UpstreamOutcome.failMidStream delivered msg)).ended = true) := by
  refine ⟨by simp [chatHandler, hp], ?_, ?_⟩
  · intro hnil
    simp [chatHandler, hp, hnil]
  · intro hne
    have hall := streamLoop_frames_delta delivered
    have hfilter : ((streamLoop delivered).1.filter (fun e => !isDeltaEvent e)) = [] := by
      refine List.filter_eq_nil_iff.mpr ?_
      intro e he
      simp [hall e he]
    have hframes :
        (chatHandler (some p) (UpstreamOutcome.failMidStream delivered msg)).frames
          = (streamLoop delivered).1 ++ [StreamEvent.error msg] := by
      simp [chatHandler, hp, hne]
    refine ⟨by simp [chatHandler, hp, hne], by simp [chatHandler, hp, hne], hframes, ?_,
      by simp [chatHandler, hp, hne]⟩
    rw [hframes, List.filter_append, hfilter]
    simp [isDeltaEvent]

theorem chat_error_bifurcation_witness :
    ((chatHandler (some "hi") (UpstreamOutcome.failBeforeStream "boom")).status = 500
      ∧ (chatHandler (some "hi") (UpstreamOutcome.failBeforeStream "boom")).frames = [])
    ∧ (chatHandler (some "hi") (UpstreamOutcome.failMidStream [some "x"] "boom")).frames
        = [StreamEvent.delta "x", StreamEvent.error "boom"] := by
  have h := chat_error_bifurcation "hi" "boom" (by decide) [some "x"]
  exact ⟨⟨h.1.1, h.1.2.1⟩, ((h.2.2 (by decide)).2.2.1).trans (by decide)⟩

theorem string_mk_data (s : String) : String.mk s.data = s := by
  cases s
  rfl

theorem stripThinkAux_no_pair (s : List Char)
    (h : (match splitFirstCI thinkOpen s with
          | none => false
          | some pr => (splitFirstCI thinkClose pr.2).isSome) = false) :
    stripThinkAux s.length s = s := by
  cases s with
  | nil => rfl
  | cons c cs =>
    show stripThinkAux (cs.length + 1) (c :: cs) = c :: cs
    unfold stripThinkAux
    cases h1 : splitFirstCI thinkOpen (c :: cs) with
    | none => simp [h1]
    | some pr =>
      rw [h1] at h
      simp at h
      simp [h1, h]

/-- C2 counterexample: on the input `"<think>a</think><think>b"`, which
contains an unterminated opening delimiter, `removeThinkBlocks` does not
return the text unchanged: the earlier complete block is still stripped. -/
theorem removeThinkBlocks_unterminated_changed :
    removeThinkBlocks "<think>a</think><think>b" = "<think>b"
    ∧ removeThinkBlocks "<think>a</think><think>b" ≠ "<think>a</think><think>b" := by
  constructor
  · decide
  · decide

/-- C2 (amended): `removeThinkBlocks "A<think>ignored\nmore</think>B" = "AB"`;
stripping is one left-to-right non-greedy pass, so for nested delimiters only
the span from each opening delimiter to the nearest closing delimiter is
removed and residual text (such as a dangling closing delimiter) remains;
when the input contains no complete opening/closing pair at all, nothing is
stripped and the input is returned with only surrounding whitespace trimmed
(in particular an input with an unmatched or unterminated `<think>` and no
earlier complete block keeps it). -/
theorem removeThinkBlocks_single_pass :
    removeThinkBlocks "A<think>igno\nred\nmore</think>B" = "AB"
    ∧ removeThinkBlocks "x<think>a<think>b</think>c</think>y" = "xc</think>y"
    ∧ removeThinkBlocks "pre<THINK>shout</ThInK>post<think>a</think>!" = "prepost!"
    ∧ (∀ s : String, hasThinkPair s = false → removeThinkBlocks s = jsTrim s) := by
  refine ⟨by decide, by decide, by decide, ?_⟩
  intro s hs
  by_cases hempty : s = ""
  · subst hempty
    decide
  · unfold removeThinkBlocks
    rw [if_neg hempty]
    unfold hasThinkPair at hs
    rw [stripThinkAux_no_pair s.data hs, string_mk_data]

theorem removeThinkBlocks_single_pass_witness :
    hasThinkPair "  tail has <think> but no close " = false
    ∧ removeThinkBlocks "  tail has <think> but no close "
        = jsTrim "  tail has <think> but no close " :=
  ⟨by decide,
   removeThinkBlocks_single_pass.2.2.2 "  tail has <think> but no close " (by decide)⟩

/-- Evaluation of `parseInt(process.env.MAX_CONTENT_LENGTH) || 50000`: a missing (or falsy)
configured value defaults to 50000. -/
def maxContentLengthOr (env : Option Nat) : Nat :=
  match env with
  | none => 50000
  | some n => if n = 0 then 50000 else n

/-- The truncation step of `POST /api/ai/summarize` in `routes/ai.js`:
`content.length > maxContentLength ? content.substring(0, maxContentLength) + '...[content truncated]' : content`. -/
def truncateContent (content : String) (maxContentLength : Nat) : String :=
  if maxContentLength < content.length
  then String.mk (content.data.take maxContentLength) ++ "...[content truncated]"
  else content

/-- The `truncated` field of the `POST /api/ai/summarize` response JSON:
`content.length > maxContentLength`. -/
def summarizeTruncatedFlag (content : String) (maxContentLength : Nat) : Bool :=
  maxContentLength < content.length

/-- The `switch (summary_type)` of `POST /api/ai/summarize`: two recognized
cases and a default template for everything else. -/
def promptTemplateFor (summary_type : String) : String :=
  if summary_type = "bullet_points" then
    "Summarize the following content in clear bullet points:\n\n"
  else if summary_type = "brief" then
    "Provide a brief, concise summary (2-3 sentences) of the following content:\n\n"
  else
    "Provide a comprehensive summary of the following content:\n\n"

/-- What the summarize handler does before (and up to) the external LLM call:
either it rejects the request synchronously, or it reaches the LLM call with
a fully built prompt. -/
inductive SummarizeGateResult where
  | badRequest (errorField message : String)
  | llmCall (fullPrompt : String)
deriving DecidableEq

/-- The validation-and-prompt-building phase of `POST /api/ai/summarize`:
reject with 400 when `content` is missing or empty (falsy), otherwise build
`fullPrompt = promptTemplate + truncatedContent` and proceed to the LLM call.
No other validation is performed. -/
def summarizeGate (content : Option String) (summary_type : String)
    (maxContentLength : Nat) : SummarizeGateResult :=
  match content with
  | none => SummarizeGateResult.badRequest "Content is required"
      "Please provide content to summarize"
  | some c =>
    if c = "" then
      SummarizeGateResult.badRequest "Content is required"
        "Please provide content to summarize"
    else
      SummarizeGateResult.llmCall
        (promptTemplateFor summary_type ++ truncateContent c maxContentLength)

/-- C4: truncation law of the summarize endpoint.  If the source text is
longer than the configured maximum `M`, the text embedded in the built
prompt is its first `M` characters followed by the truncation marker and
the response records `truncated = true`; otherwise the embedded text is the
source text unmodified and `truncated = false`.  The configured maximum
defaults to 50000. -/
theorem summarize_truncation_law (s : String) (st : String) (M : Nat) (hs : s ≠ "") :
    (M < s.length →
      summarizeGate (some s) st M
        = SummarizeGateResult.llmCall
            (promptTemplateFor st
              ++ (String.mk (s.data.take M) ++ "...[content truncated]"))
      ∧ summarizeTruncatedFlag s M = true)
    ∧ (¬ M < s.length →
      summarizeGate (some s) st M
        = SummarizeGateResult.llmCall (promptTemplateFor st ++ s)
      ∧ summarizeTruncatedFlag s M = false)
    ∧ maxContentLengthOr none = 50000 := by
  refine ⟨?_, ?_, rfl⟩
  · intro hlong
    constructor
    · simp [summarizeGate, hs, truncateContent, hlong]
    · simp [summarizeTruncatedFlag, hlong]
  · intro hshort
    constructor
    · simp [summarizeGate, hs, truncateContent, hshort]
    · simp [summarizeTruncatedFlag, hshort]

theorem summarize_truncation_law_witness :
    (summarizeGate (some "abcdef") "brief" 4
        = SummarizeGateResult.llmCall
            ("Provide a brief, concise summary (2-3 sentences) of the following content:\n\n"
              ++ "abcd...[content truncated]")
      ∧ summarizeTruncatedFlag "abcdef" 4 = true)
    ∧ (summarizeGate (some "abcdef") "brief" 10
        = SummarizeGateResult.llmCall
            ("Provide a brief, concise summary (2-3 sentences) of the following content:\n\n"
              ++ "abcdef")
      ∧ summarizeTruncatedFlag "abcdef" 10 = false) := by
  constructor
  · have h := (summarize_truncation_law "abcdef" "brief" 4 (by decide)).1 (by decide)
    exact ⟨h.1.trans (by decide), h.2⟩
  · have h := (summarize_truncation_law "abcdef" "brief" 10 (by decide)).2.1 (by decide)
    exact ⟨h.1.trans (by decide), h.2⟩

/-- The style enumeration the specification recognizes for summaries
(spec section 3, `SummaryRequest.style`), in the wire spelling used by the
summarize endpoints. -/
def recognizedSummaryTypes : List String :=
  ["general", "brief", "bullet_points", "detailed"]

/-- C8 counterexample: a request with non-empty content and a `summary_type`
outside every recognized enumeration is not rejected: the gate proceeds to
the LLM call, treating the style as the default (general) template. -/
theorem summarize_unrecognized_style_not_rejected :
    recognizedSummaryTypes.contains "blurb" = false
    ∧ summarizeGate (some "hello world") "blurb" 50000
        = SummarizeGateResult.llmCall
            ("Provide a comprehensive summary of the following content:\n\n"
              ++ "hello world") := by
  constructor
  · decide
  · decide

/-- C8 (amended): the summarize request gate rejects with HTTP 400 only when
`content` is missing or empty, and this happens before any LLM call; an
unrecognized `summary_type` is not rejected — the request proceeds to the
LLM call with the default (general) prompt template. -/
theorem summarize_gate_behaviour (st c : String) (M : Nat) (hc : c ≠ "")
    (hst : recognizedSummaryTypes.contains st = false) :
    summarizeGate none st M
      = SummarizeGateResult.badRequest "Content is required"
          "Please provide content to summarize"
    ∧ summarizeGate (some "") st M
      = SummarizeGateResult.badRequest "Content is required"
          "Please provide content to summarize"
    ∧ summarizeGate (some c) st M
      = SummarizeGateResult.llmCall
          (promptTemplateFor "general" ++ truncateContent c M) := by
  have h1 : st ≠ "bullet_points" := by
    intro he
    rw [he] at hst
    simp [recognizedSummaryTypes] at hst
  have h2 : st ≠ "brief" := by
    intro he
    rw [he] at hst
    simp [recognizedSummaryTypes] at hst
  refine ⟨rfl, by simp [summarizeGate], ?_⟩
  simp [summarizeGate, hc, promptTemplateFor, h1, h2]

theorem summarize_gate_behaviour_witness :
    summarizeGate (some "notes text") "blurb" 50000
      = SummarizeGateResult.llmCall
          ("Provide a comprehensive summary of the following content:\n\n"
            ++ "notes text") := by
  have h := (summarize_gate_behaviour "blurb" "notes text" 50000 (by decide) (by decide)).2.2
  exact h.trans (by decide)

deriving instance DecidableEq for Except

/-- If `s` starts with `pat` (exact, case-sensitive comparison), return the
remainder of `s` after the prefix. -/
def dropPatCS : List Char → List Char → Option (List Char)
  | [], s => some s
  | _, [] => none
  | p :: ps, c :: cs => if c = p then dropPatCS ps cs else none

/-- The character class `[^&\n?#]` of the first `extractVideoId` pattern:
everything except the separators that end a video id in a URL. -/
def isVideoIdStop (c : Char) : Bool :=
  c = '&' || c = '\n' || c = '?' || c = '#'

/-- First alternation of the URL pattern, spelled as in the source regex. -/
def watchPat : List Char := "youtube.com/watch?v=".data

/-- Second alternation of the URL pattern. -/
def shortLinkPat : List Char := "youtu.be/".data

/-- Third alternation of the URL pattern. -/
def embedPat : List Char := "youtube.com/embed/".data

/-- Try one alternative of
`/(?:youtube\.com\/watch\?v=|youtu\.be\/|youtube\.com\/embed\/)([^&\n?#]+)/`
at the current position: the alternative's literal text must match here and
the capture `[^&\n?#]+` must be non-empty. -/
def tryUrlAlt (pat : List Char) (s : List Char) : Option (List Char) :=
  match dropPatCS pat s with
  | none => none
  | some rest =>
    let run := rest.takeWhile (fun c => !(isVideoIdStop c))
    if run.isEmpty then none else some run

/-- JavaScript `url.match` against the URL pattern: scan left to right; at each position
try the three alternatives in their regex order; the first success wins and
yields the capture group. -/
def urlPatternScan : List Char → Option (List Char)
  | [] => none
  | c :: cs =>
    match tryUrlAlt watchPat (c :: cs) with
    | some run => some run
    | none =>
      match tryUrlAlt shortLinkPat (c :: cs) with
      | some run => some run
      | none =>
        match tryUrlAlt embedPat (c :: cs) with
        | some run => some run
        | none => urlPatternScan cs

/-- The character class of the direct-id pattern `/^([a-zA-Z0-9_-]{11})$/`. -/
def isVideoIdChar (c : Char) : Bool :=
  c.isAlphanum || c = '_' || c = '-'

/-- Function `extractVideoId` from the youtube-summary router: try the URL pattern,
then the bare 11-character direct-id pattern; first match wins; throw on no
match. -/
def extractVideoId (url : String) : Except String String :=
  match urlPatternScan url.data with
  | some run => Except.ok (String.mk run)
  | none =>
    if url.data.length = 11 && url.data.all isVideoIdChar then Except.ok url
    else Except.error "Invalid YouTube URL format"

/-- C5: `extractVideoId` maps all three URL forms and the bare 11-character
id to the same video id, trying the URL alternatives before the bare-id
pattern, and fails with the bad-video-id error on `"not a url"`. -/
theorem extractVideoId_examples :
    extractVideoId "https://youtu.be/dQw4w9WgXcQ" = Except.ok "dQw4w9WgXcQ"
    ∧ extractVideoId "https://www.youtube.com/watch?v=dQw4w9WgXcQ" = Except.ok "dQw4w9WgXcQ"
    ∧ extractVideoId "https://www.youtube.com/embed/dQw4w9WgXcQ" = Except.ok "dQw4w9WgXcQ"
    ∧ extractVideoId "dQw4w9WgXcQ" = Except.ok "dQw4w9WgXcQ"
    ∧ urlPatternScan "dQw4w9WgXcQ".data = none
    ∧ extractVideoId "not a url" = Except.error "Invalid YouTube URL format" := by
  refine ⟨by decide, by decide, by decide, by decide, by decide, by decide⟩

/-- The `fullTranscript` field of the `POST /api/youtube-summary/summarize`
response: `fullTranscript.substring(0, 1000) + (fullTranscript.length > 1000 ? '...' : '')`. -/
def responseFullTranscript (fullTranscript : String) : String :=
  String.mk (fullTranscript.data.take 1000)
    ++ (if 1000 < fullTranscript.data.length then "..." else "")

theorem string_mk_append (a b : List Char) :
    String.mk a ++ String.mk b = String.mk (a ++ b) := rfl

/-- C9 counterexample: for a transcript of 1001 characters the returned
`fullTranscript` field has 1003 characters, exceeding the claimed 1000. -/
theorem responseFullTranscript_over_1000 :
    (responseFullTranscript (String.mk (List.replicate 1001 'a'))).length = 1003
    ∧ ¬ (responseFullTranscript (String.mk (List.replicate 1001 'a'))).length ≤ 1000 := by
  constructor
  · decide
  · decide

/-- C9 (amended): the `fullTranscript` field of a successful summarize-video
response keeps the first 1000 characters of the transcript and appends a
three-character ellipsis marker exactly when the transcript is longer than
1000 characters, so its length is `min 1000 len` plus 3 in that case — in
particular it is always at most 1003 characters, and at most 1000 only when
no marker is appended. -/
theorem responseFullTranscript_length (t : String) :
    (responseFullTranscript t).length
      = min 1000 t.length + (if 1000 < t.length then 3 else 0)
    ∧ (responseFullTranscript t).length ≤ 1003 := by
  obtain ⟨d⟩ := t
  have hlen : (String.mk d).length = d.length := rfl
  have hmain : (responseFullTranscript (String.mk d)).length
      = min 1000 d.length + (if 1000 < d.length then 3 else 0) := by
    unfold responseFullTranscript
    by_cases h : 1000 < d.length
    · rw [if_pos (by simpa using h), if_pos (by simpa [hlen] using h)]
      show (String.mk (d.take 1000) ++ String.mk "...".data).length = _
      rw [string_mk_append]
      show (d.take 1000 ++ "...".data).length = _
      simp [List.length_take]
    · rw [if_neg (by simpa using h), if_neg (by simpa [hlen] using h)]
      show (String.mk (d.take 1000) ++ String.mk "".data).length = _
      rw [string_mk_append]
      show (d.take 1000 ++ "".data).length = _
      simp [List.length_take]
  refine ⟨hmain, ?_⟩
  rw [hmain]
  by_cases h : 1000 < d.length
  · simp only [if_pos h]
    omega
  · simp only [if_neg h]
    omega

/-- JavaScript `content.replace(/\s+/g, ' ')` on a character list: every maximal run of
whitespace becomes a single space.  `fuel` bounds the recursion; the length
of the list always suffices because every step consumes at least one
character. -/
def collapseWsAux : Nat → List Char → List Char
  | 0, s => s
  | _, [] => []
  | fuel + 1, c :: cs =>
    if c.isWhitespace then ' ' :: collapseWsAux fuel (cs.dropWhile Char.isWhitespace)
    else c :: collapseWsAux fuel cs

/-- JavaScript `content.replace(/\s+/g, ' ').trim()`: collapse whitespace runs to single
spaces, then trim. -/
def collapseWs (s : String) : String :=
  jsTrim (String.mk (collapseWsAux s.data.length s.data))

/-- A loaded HTML document after the noise-removal step
(`$('script, style, nav, header, footer, aside, ...').remove()`), modelled by
what the cheerio queries used by `extractMainContent` observe on it:
the combined text of the matches of each selector (`none` when the selector
matches no element), the texts of the paragraph elements, the body text and
the title text. -/
structure HtmlDoc where
  selText : String → Option String
  paragraphTexts : List String
  bodyText : String
  titleText : String

/-- The fixed priority list of content-container selectors of
`extractMainContent`. -/
def mainSelectors : List String :=
  ["main", "[role=\"main\"]", ".main-content", ".content", ".post-content",
   ".article-content", ".entry-content", "article", ".article-body"]

/-- The selector cascade of `extractMainContent`: starting from the empty
string, for each selector in priority order, if it matches and its trimmed
text is strictly longer than the current candidate, it becomes the new
candidate. -/
def selectorPass (doc : HtmlDoc) : String :=
  mainSelectors.foldl
    (fun content sel =>
      match doc.selText sel with
      | some t => if content.length < (jsTrim t).length then jsTrim t else content
      | none => content)
    ""

/-- The result record of `extractMainContent`. -/
structure ExtractedContent where
  content : String
  title : String
  url : String
deriving DecidableEq

/-- Result of `extractMainContent(html, url)` from the web-summary router:
selector cascade, then the paragraph fallback and the body fallback when the
candidate is shorter than 100 characters, then whitespace collapsing. -/
def extractMainContent (doc : HtmlDoc) (url : String) : ExtractedContent :=
  let c1 := selectorPass doc
  let c2 := if c1 = "" || c1.length < 100
            then String.intercalate "\n\n" (doc.paragraphTexts.map jsTrim)
            else c1
  let c3 := if c2 = "" || c2.length < 100 then jsTrim doc.bodyText else c2
  { content := collapseWs c3,
    title := if jsTrim doc.titleText = "" then url else jsTrim doc.titleText,
    url := url }

/-- Length of the trimmed text of an optional selector match; a selector with
no match contributes length 0. -/
def optTrimLen : Option String → Nat
  | none => 0
  | some t => (jsTrim t).length

theorem selectorFold_keep (doc : HtmlDoc) (content : String) (sels : List String)
    (h : ∀ sel ∈ sels, optTrimLen (doc.selText sel) ≤ content.length) :
    sels.foldl
      (fun content sel =>
        match doc.selText sel with
        | some t => if content.length < (jsTrim t).length then jsTrim t else content
        | none => content)
      content = content := by
  induction sels with
  | nil => rfl
  | cons s ss ih =>
    rw [List.foldl_cons]
    have hs := h s (by simp)
    have hstep :
        (match doc.selText s with
          | some t => if content.length < (jsTrim t).length then jsTrim t else content
          | none => content) = content := by
      cases hsel : doc.selText s with
      | none => rfl
      | some t =>
        rw [hsel] at hs
        simp only [optTrimLen] at hs
        simp [Nat.not_lt.mpr hs]
    rw [hstep]
    exact ih (fun sel hsel => h sel (by simp [hsel]))

/-- A document whose `main` element has the longest trimmed selector text of
all candidates (60 characters) but whose text stays under the 100-character
bar, next to a long paragraph. -/
def shortMainDoc : HtmlDoc :=
  { selText := fun sel => if sel = "main" then some (String.mk (List.replicate 60 'm')) else none,
    paragraphTexts := [String.mk (List.replicate 200 'p')],
    bodyText := "",
    titleText := "" }

/-- C6 counterexample: in `shortMainDoc` the `main` element's trimmed text is
strictly the longest among all selector candidates, yet `extractMainContent`
does not return it: because it is under 100 characters the paragraph
fallback overrides the selector cascade. -/
theorem extract_main_short_overridden :
    shortMainDoc.selText "main" = some (String.mk (List.replicate 60 'm'))
    ∧ (∀ sel ∈ mainSelectors, sel ≠ "main" →
        optTrimLen (shortMainDoc.selText sel)
          < (jsTrim (String.mk (List.replicate 60 'm'))).length)
    ∧ (extractMainContent shortMainDoc "http://x").content
        = String.mk (List.replicate 200 'p')
    ∧ (extractMainContent shortMainDoc "http://x").content
        ≠ collapseWs (jsTrim (String.mk (List.replicate 60 'm'))) := by
  refine ⟨by decide, by decide, by decide, by decide⟩

/-- C6 (amended): for every document in which the `main` element's trimmed
text is at least 100 characters long and strictly longer than every other
content-container candidate's trimmed text, `extractMainContent` returns the
`main` element's trimmed text with all whitespace runs collapsed to single
spaces and trimmed — the longest candidate is selected, never a shorter one.
(When the longest candidate is under 100 characters the paragraph and body
fallbacks take over instead, as the counterexample shows.) -/
theorem extract_main_longest_selected (doc : HtmlDoc) (url mainText : String)
    (hmain : doc.selText "main" = some mainText)
    (hlen : 100 ≤ (jsTrim mainText).length)
    (hmax : ∀ sel ∈ mainSelectors, sel ≠ "main" →
      optTrimLen (doc.selText sel) < (jsTrim mainText).length) :
    (extractMainContent doc url).content = collapseWs (jsTrim mainText) := by
  have hpass : selectorPass doc = jsTrim mainText := by
    unfold selectorPass mainSelectors
    rw [List.foldl_cons]
    have hfirst :
        (match doc.selText "main" with
          | some t => if ("" : String).length < (jsTrim t).length then jsTrim t else ""
          | none => "") = jsTrim mainText := by
      rw [hmain]
      have h0 : ("" : String).length = 0 := rfl
      simp only [h0]
      rw [if_pos (by omega)]
    rw [hfirst]
    refine selectorFold_keep doc (jsTrim mainText) _ ?_
    intro sel hsel
    have hne : sel ≠ "main" := by
      fin_cases hsel <;> decide
    have hmem : sel ∈ mainSelectors := by
      have : sel ∈ ("main" ::
          ["[role=\"main\"]", ".main-content", ".content", ".post-content",
           ".article-content", ".entry-content", "article", ".article-body"]) := by
        exact List.mem_cons_of_mem _ hsel
      simpa [mainSelectors] using this
    exact Nat.le_of_lt (hmax sel hmem hne)
  have hne : jsTrim mainText ≠ "" := by
    intro h
    rw [h] at hlen
    simp at hlen
  have hnlt : ¬ (jsTrim mainText).length < 100 := Nat.not_lt.mpr hlen
  unfold extractMainContent
  simp only [hpass]
  simp [hne, hnlt]

theorem extract_main_longest_selected_witness :
    (extractMainContent
        { selText := fun sel =>
            if sel = "main" then some (String.mk (List.replicate 120 'm'))
            else if sel = "article" then some "short sidebar text" else none,
          paragraphTexts := ["unrelated paragraph"],
          bodyText := "body text",
          titleText := "t" } "http://x").content
      = collapseWs (jsTrim (String.mk (List.replicate 120 'm'))) := by
  exact extract_main_longest_selected _ "http://x" (String.mk (List.replicate 120 'm'))
    (by decide) (by decide) (by decide)

/-- The response of `POST /api/web-summary/extract` after the content fetch,
as far as the empty-content check and the success payload are concerned. -/
inductive ExtractRouteResult where
  | badRequest (errorField message : String)
  | ok (data : ExtractedContent) (contentLength : Nat)
deriving DecidableEq

/-- The post-fetch part of the `POST /api/web-summary/extract` handler: run
`extractMainContent`, reject with the empty-content 400 error when the
extracted text is falsy or shorter than 50 characters, otherwise answer with
the extracted data and its stats. -/
def extractRoute (doc : HtmlDoc) (url : String) : ExtractRouteResult :=
  let extracted := extractMainContent doc url
  if extracted.content = "" || extracted.content.length < 50 then
    ExtractRouteResult.badRequest "No content found"
      "Unable to extract meaningful content from the provided URL"
  else
    ExtractRouteResult.ok extracted extracted.content.length

/-- C7: whenever the extraction pipeline (selector cascade, paragraph and
body fallbacks, whitespace collapsing) yields text shorter than 50
characters, the extract endpoint fails with the empty-content error instead
of returning the extracted content. -/
theorem extract_empty_content_rejected (doc : HtmlDoc) (url : String)
    (h : (extractMainContent doc url).content.length < 50) :
    extractRoute doc url
      = ExtractRouteResult.badRequest "No content found"
          "Unable to extract meaningful content from the provided URL" := by
  unfold extractRoute
  simp [h]

theorem extract_empty_content_rejected_witness :
    (extractMainContent
        { selText := fun _ => none, paragraphTexts := [],
          bodyText := " tiny ", titleText := "" } "http://x").content.length < 50
    ∧ extractRoute
        { selText := fun _ => none, paragraphTexts := [],
          bodyText := " tiny ", titleText := "" } "http://x"
      = ExtractRouteResult.badRequest "No content found"
          "Unable to extract meaningful content from the provided URL" :=
  ⟨by decide,
   extract_empty_content_rejected
     { selText := fun _ => none, paragraphTexts := [],
       bodyText := " tiny ", titleText := "" } "http://x" (by decide)⟩

/-- A note document as stored in the `notes` collection.  `version` is
optional because documents written before versioning existed may lack it;
`POST /api/notes` always writes `version: 1`. -/
structure StoredNote where
  userId : String
  title : String
  content : String
  tags : List String
  links : List String
  category : String
  createdAt : String
  updatedAt : String
  version : Option Nat
deriving DecidableEq

/-- A request-body value for the `tags`/`links` fields: either an array or
some non-array value, which `Array.isArray(x) ? x : []` normalizes to `[]`. -/
inductive JsArrayField where
  | arr (items : List String)
  | notArray
deriving DecidableEq

/-- JavaScript `Array.isArray(x) ? x : []`. -/
def coerceArray : JsArrayField → List String
  | JsArrayField.arr items => items
  | JsArrayField.notArray => []

/-- The request body of `PUT /api/notes/:id`; `none` models a field that was
omitted (`undefined`). -/
structure NoteUpdateRequest where
  title : Option String
  content : Option String
  tags : Option JsArrayField
  links : Option JsArrayField
  category : Option String
deriving DecidableEq

/-- JavaScript `existingData.version || 1`: `||` substitutes 1 for every
falsy left operand, so both an absent version (`undefined`) and a stored
version of 0 default to 1. -/
def versionOr1 : Option Nat → Nat
  | none => 1
  | some n => if n = 0 then 1 else n

/-- The update applied by `PUT /api/notes/:id` once ownership is verified:
`updateData` always carries a fresh `updatedAt` and
`version = (existingData.version || 1) + 1`, plus exactly the request fields
that were not `undefined`; `noteRef.update(updateData)` overwrites those
fields and leaves every other stored field unchanged. -/
def applyNoteUpdate (existing : StoredNote) (req : NoteUpdateRequest)
    (now : String) : StoredNote :=
  { existing with
    updatedAt := now,
    version := some (versionOr1 existing.version + 1),
    title := match req.title with | some t => t | none => existing.title,
    content := match req.content with | some c => c | none => existing.content,
    tags := match req.tags with | some v => coerceArray v | none => existing.tags,
    links := match req.links with | some v => coerceArray v | none => existing.links,
    category := match req.category with | some c => c | none => existing.category }

/-- Result of the `PUT /api/notes/:id` handler. -/
inductive PutNoteResult where
  | notFound
  | forbidden
  | ok (note : StoredNote)
deriving DecidableEq

/-- The `PUT /api/notes/:id` handler of `routes/notes.js`: 404 when the
document does not exist, 403 when the authenticated caller does not own it,
otherwise apply the update and return the updated note. -/
def putNoteHandler (callerUid : String) (stored : Option StoredNote)
    (req : NoteUpdateRequest) (now : String) : PutNoteResult :=
  match stored with
  | none => PutNoteResult.notFound
  | some existing =>
    if existing.userId ≠ callerUid then PutNoteResult.forbidden
    else PutNoteResult.ok (applyNoteUpdate existing req now)

/-- C10 counterexample: for a note stored with `version: 0`, the owner's
update sets `version` to 2, because `(existingData.version || 1) + 1`
substitutes 1 for every JavaScript-falsy previous value, 0 included — not to
1, the present previous version plus exactly 1 that the claim prescribes. -/
theorem put_note_version_zero :
    (applyNoteUpdate
        { userId := "u1", title := "t", content := "c", tags := [],
          links := [], category := "general", createdAt := "2024-01-01",
          updatedAt := "2024-01-02", version := some 0 }
        { title := none, content := none, tags := none, links := none,
          category := none } "2024-02-01").version = some 2
    ∧ (applyNoteUpdate
        { userId := "u1", title := "t", content := "c", tags := [],
          links := [], category := "general", createdAt := "2024-01-01",
          updatedAt := "2024-01-02", version := some 0 }
        { title := none, content := none, tags := none, links := none,
          category := none } "2024-02-01").version ≠ some (0 + 1) := by
  constructor
  · decide
  · decide

/-- C10 (amended): a successful note update by the owning user keeps every
field that was omitted from the request body (title, content, tags, links,
category) at its previous value, refreshes `updatedAt`, sets `version` to
the previous version plus exactly 1 where an absent or zero previous version
defaults to 1 (JavaScript falsy semantics — so a note stored with version 0
updates to 2, not 1), and changes no other stored field (`userId` and
`createdAt` are preserved). -/
theorem put_note_frame (callerUid now : String) (existing : StoredNote)
    (req : NoteUpdateRequest) (hown : existing.userId = callerUid) :
    putNoteHandler callerUid (some existing) req now
      = PutNoteResult.ok (applyNoteUpdate existing req now)
    ∧ (req.title = none → (applyNoteUpdate existing req now).title = existing.title)
    ∧ (req.content = none → (applyNoteUpdate existing req now).content = existing.content)
    ∧ (req.tags = none → (applyNoteUpdate existing req now).tags = existing.tags)
    ∧ (req.links = none → (applyNoteUpdate existing req now).links = existing.links)
    ∧ (req.category = none → (applyNoteUpdate existing req now).category = existing.category)
    ∧ (applyNoteUpdate existing req now).updatedAt = now
    ∧ (applyNoteUpdate existing req now).version = some (versionOr1 existing.version + 1)
    ∧ (applyNoteUpdate existing req now).userId = existing.userId
    ∧ (applyNoteUpdate existing req now).createdAt = existing.createdAt := by
  refine ⟨by simp [putNoteHandler, hown], ?_, ?_, ?_, ?_, ?_, ?_, ?_, ?_, ?_⟩ <;>
    first
    | (intro hfield; simp [applyNoteUpdate, hfield])
    | simp [applyNoteUpdate]

theorem put_note_frame_witness :
    putNoteHandler "u1"
        (some { userId := "u1", title := "t", content := "c", tags := ["a"],
                links := [], category := "general", createdAt := "2024-01-01",
                updatedAt := "2024-01-02", version := some 3 })
        { title := some "t2", content := none, tags := none, links := none,
          category := none } "2024-02-01"
      = PutNoteResult.ok
          { userId := "u1", title := "t2", content := "c", tags := ["a"],
            links := [], category := "general", createdAt := "2024-01-01",
            updatedAt := "2024-02-01", version := some 4 } := by
  have h := (put_note_frame "u1" "2024-02-01"
    { userId := "u1", title := "t", content := "c", tags := ["a"],
      links := [], category := "general", createdAt := "2024-01-01",
      updatedAt := "2024-01-02", version := some 3 }
    { title := some "t2", content := none, tags := none, links := none,
      category := none } (by decide)).1
  exact h.trans (by decide)
